import Mathlib

/-!
Verification of the firefly real-time ingestion pipeline (Go) against its
natural-language specification. The Go source is shallowly embedded below:
pure message processing becomes Lean functions over a JSON parse-tree model,
the supervisor loop becomes an explicit trace function over connection
outcomes, and the bounded channels become explicit queue/send models.
Machine integers are modelled as `Int` with an explicit 64-bit wrap where Go
overflow semantics matter.
-/

namespace Firefly

/-- JSON parse trees, modelling the values Go's `encoding/json` produces.
Numbers are modelled as `Int`: the repository only ever decodes JSON numbers
into `int64` fields, where a fractional value is a decode error, so integers
suffice for the envelope model. -/
inductive Json where
  | null
  | bool (b : Bool)
  | num (n : Int)
  | str (s : String)
  | arr (xs : List Json)
  | obj (fields : List (String × Json))
deriving Repr

/-- A raw wire payload as handed to `processFirehoseMessage`: either bytes
that are not well-formed JSON at all, or a successfully parsed tree. -/
inductive WirePayload where
  | malformed
  | wellFormed (j : Json)
deriving Repr

/-- Look up an object key. Go's decoder lets a later duplicate key overwrite
an earlier one, so the last binding wins. -/
def jLookup (fs : List (String × Json)) (k : String) : Option Json :=
  (fs.reverse.find? (fun p => p.1 == k)).map (fun p => p.2)

/-- Bounds of Go's `int64`, used where the repository decodes into `int64`. -/
def int64Min : Int := -(2 ^ 63)

def int64Max : Int := 2 ^ 63 - 1

/-- Two's-complement wrap to 64 bits, Go's semantics for `int64` overflow. -/
def wrap64 (n : Int) : Int := (n + 2 ^ 63) % 2 ^ 64 - 2 ^ 63

/-- Decode a `string` struct field: an absent or null key leaves the zero
value `""`; a present value of any other JSON type is a decode error
(Go `encoding/json` semantics). -/
def decStrField (fs : List (String × Json)) (k : String) : Except String String :=
  match jLookup fs k with
  | none => .ok ""
  | some .null => .ok ""
  | some (.str s) => .ok s
  | some _ => .error "json: cannot unmarshal value into field of type string"

/-- Decode a `*string` struct field: absent or null leaves `nil`. -/
def decOptStrField (fs : List (String × Json)) (k : String) :
    Except String (Option String) :=
  match jLookup fs k with
  | none => .ok none
  | some .null => .ok none
  | some (.str s) => .ok (some s)
  | some _ => .error "json: cannot unmarshal value into field of type *string"

/-- Decode an `int64` struct field: absent or null leaves `0`; a number that
does not fit in 64 bits is a decode error, as in Go. -/
def decIntField (fs : List (String × Json)) (k : String) : Except String Int :=
  match jLookup fs k with
  | none => .ok 0
  | some .null => .ok 0
  | some (.num n) =>
      if int64Min ≤ n ∧ n ≤ int64Max then .ok n
      else .error "json: cannot unmarshal number into field of type int64"
  | some _ => .error "json: cannot unmarshal value into field of type int64"

/-- Decode a `bool` struct field. -/
def decBoolField (fs : List (String × Json)) (k : String) : Except String Bool :=
  match jLookup fs k with
  | none => .ok false
  | some .null => .ok false
  | some (.bool b) => .ok b
  | some _ => .error "json: cannot unmarshal value into field of type bool"

/-- Decode a `[]string` struct field. -/
def decStrListField (fs : List (String × Json)) (k : String) :
    Except String (List String) :=
  match jLookup fs k with
  | none => .ok []
  | some .null => .ok []
  | some (.arr xs) =>
      xs.foldr (fun x acc =>
        match x, acc with
        | .str s, .ok l => .ok (s :: l)
        | _, .error e => .error e
        | _, _ => .error "json: cannot unmarshal element into string") (.ok [])
  | some _ => .error "json: cannot unmarshal value into field of type []string"

/-- `models.Commit` from the Jetstream dependency, as consumed by the
repository: rev, operation, collection, rkey, raw record, cid. `record` is
`json.RawMessage`: the raw value is retained verbatim (present `null`
included), never a decode error. -/
structure Commit where
  rev : String
  operation : String
  collection : String
  rkey : String
  record : Option Json
  cid : String
deriving Repr

/-- `models.Identity` (Jetstream dependency) as consumed by the repository. -/
structure Identity where
  did : String
  handle : Option String
  seq : Int
  time : String
deriving Repr

/-- `models.Account` (Jetstream dependency) as consumed by the repository. -/
structure Account where
  active : Bool
  did : String
  seq : Int
  status : Option String
  time : String
deriving Repr

/-- `models.Event` (Jetstream dependency): the generic wire envelope. -/
structure ModelsEvent where
  did : String
  timeUS : Int
  kind : String
  commit : Option Commit
  identity : Option Identity
  account : Option Account
deriving Repr

/-- Decode the `*models.Commit` field of the envelope. -/
def decCommitField (fs : List (String × Json)) : Except String (Option Commit) :=
  match jLookup fs "commit" with
  | none => .ok none
  | some .null => .ok none
  | some (.obj cfs) => do
      let rev ← decStrField cfs "rev"
      let op ← decStrField cfs "operation"
      let coll ← decStrField cfs "collection"
      let rkey ← decStrField cfs "rkey"
      let cid ← decStrField cfs "cid"
      .ok (some { rev := rev, operation := op, collection := coll, rkey := rkey,
                  record := jLookup cfs "record", cid := cid })
  | some _ => .error "json: cannot unmarshal value into field of type *models.Commit"

/-- Decode the `*models.Identity` field of the envelope. -/
def decIdentityField (fs : List (String × Json)) : Except String (Option Identity) :=
  match jLookup fs "identity" with
  | none => .ok none
  | some .null => .ok none
  | some (.obj ifs) => do
      let did ← decStrField ifs "did"
      let handle ← decOptStrField ifs "handle"
      let seq ← decIntField ifs "seq"
      let time ← decStrField ifs "time"
      .ok (some { did := did, handle := handle, seq := seq, time := time })
  | some _ => .error "json: cannot unmarshal value into field of type *models.Identity"

/-- Decode the `*models.Account` field of the envelope. -/
def decAccountField (fs : List (String × Json)) : Except String (Option Account) :=
  match jLookup fs "account" with
  | none => .ok none
  | some .null => .ok none
  | some (.obj afs) => do
      let active ← decBoolField afs "active"
      let did ← decStrField afs "did"
      let seq ← decIntField afs "seq"
      let status ← decOptStrField afs "status"
      let time ← decStrField afs "time"
      .ok (some { active := active, did := did, seq := seq, status := status,
                  time := time })
  | some _ => .error "json: cannot unmarshal value into field of type *models.Account"

/-- The wire decoder: `json.Unmarshal(message, &rawCommit)` in
`processFirehoseMessage`. Not-well-formed bytes fail; a well-formed value
that is not an object (or `null`) fails; present fields of the wrong type
fail; absent fields simply leave the Go zero values. -/
def unmarshalEvent (p : WirePayload) : Except String ModelsEvent :=
  match p with
  | .malformed => .error "failed to unmarshal jetstream message"
  | .wellFormed .null =>
      .ok { did := "", timeUS := 0, kind := "", commit := none, identity := none,
            account := none }
  | .wellFormed (.obj fs) => do
      let did ← decStrField fs "did"
      let timeUS ← decIntField fs "time_us"
      let kind ← decStrField fs "kind"
      let commit ← decCommitField fs
      let identity ← decIdentityField fs
      let account ← decAccountField fs
      .ok { did := did, timeUS := timeUS, kind := kind, commit := commit,
            identity := identity, account := account }
  | .wellFormed _ =>
      .error "json: cannot unmarshal value into Go value of type models.Event"

/-- Abstraction of the Go standard library's `time.Parse(time.RFC3339, s)`
(external to the repository): the pipeline depends only on which strings
parse, never on the parsed instant, so we recognise strings containing the
RFC3339 date/time separator and return a fixed instant. Every theorem below
is insensitive to the particular recogniser chosen here. -/
def parseRFC3339 (s : String) : Option Int :=
  if s.contains 'T' then some 0 else none

/-- Abstraction of Go's `Time.Format("2006-01-02T15:04:05.000Z")`: all that
matters to the pipeline is that the output re-parses under `parseRFC3339`. -/
def formatRFC3339 (t : Int) : String :=
  toString t ++ "T00:00:00.000Z"

/-- `FirehoseEventType` from the source, extended with the `identity` and
`account` constructors that `processIdentityEvent` / `processAccountEvent`
(src/users.go) assign but whose declarations are not under src/. -/
inductive FirehoseEventType where
  | unknown
  | post
  | like
  | follow
  | profile
  | delete
  | repost
  | identity
  | account
deriving Repr, DecidableEq

/-- `PostRef`: content-addressed reference to a post. -/
structure PostRef where
  cid : String
  uri : String
deriving Repr, DecidableEq

/-- `User`, restricted to the fields the ingestion pipeline ever writes
(`did`, `handle`, `displayName`, `avatar`, `createdAt`); the remaining
profile fields are never touched by the firehose code paths. -/
structure User where
  did : String
  handle : String
  displayName : Option String
  avatar : Option String
  createdAt : Int
deriving Repr, DecidableEq

/-- `FeedPost`, restricted to the fields the ingestion pipeline writes. -/
structure FeedPost where
  uri : String
  cid : String
  text : String
  createdAt : Int
  languages : List String
  tags : List String
deriving Repr, DecidableEq

/-- `FirehoseDelete`: a deletion sub-event. -/
structure FirehoseDelete where
  collection : String
  recordKey : String
  uri : String
deriving Repr, DecidableEq

/-- `FirehoseLike`: a like sub-event. -/
structure FirehoseLike where
  subject : Option PostRef
  uri : String
deriving Repr, DecidableEq

/-- `FirehoseRepost`: a repost sub-event. -/
structure FirehoseRepost where
  subject : Option PostRef
  uri : String
deriving Repr, DecidableEq

/-- Modelled from the spec: the `FirehoseIdentity` declaration is not under
src/; its shape follows the spec's Identity Sub-event (identity, optional
updated handle, server-assigned sequence number) and the field assignments
in `processIdentityEvent` (src/users.go). `time` is 0 when the envelope's
time string fails to parse, matching the Go zero `time.Time`. -/
structure FirehoseIdentity where
  did : String
  handle : String
  seq : Int
  time : Int
deriving Repr, DecidableEq

/-- Modelled from the spec: the `FirehoseAccount` declaration is not under
src/; its shape follows the spec's Account Sub-event (identity,
active/inactive status, sequence number) and the field assignments in
`processAccountEvent` (src/users.go). -/
structure FirehoseAccount where
  did : String
  active : Bool
  seq : Int
  status : String
  time : Int
deriving Repr, DecidableEq

/-- `FirehoseEvent`: the Domain Event delivered to the consumer. The Go
struct stores `Timestamp time.Time`; we store the equivalent count of
nanoseconds since the Unix epoch in `timestampNs`. The `identityEvent` and
`accountEvent` fields are assigned by src/users.go but declared outside
src/; they are modelled from the spec (see `FirehoseIdentity`). -/
structure FirehoseEvent where
  eventType : FirehoseEventType
  sequence : Int
  repo : String
  timestampNs : Int
  post : Option FeedPost
  user : Option User
  deleteEvent : Option FirehoseDelete
  likeEvent : Option FirehoseLike
  repostEvent : Option FirehoseRepost
  identityEvent : Option FirehoseIdentity
  accountEvent : Option FirehoseAccount
  rawCommit : ModelsEvent
deriving Repr

/-- The number of populated kind-specific payload fields on an event. -/
def populatedPayloadCount (e : FirehoseEvent) : Nat :=
  e.post.toList.length + e.user.toList.length + e.deleteEvent.toList.length +
    e.likeEvent.toList.length + e.repostEvent.toList.length +
    e.identityEvent.toList.length + e.accountEvent.toList.length

/-- `fmt.Sprintf("at://%s/%s/%s", repo, collection, rkey)`. -/
def atURI (repo collection rkey : String) : String :=
  "at://" ++ repo ++ "/" ++ collection ++ "/" ++ rkey

/-- The base event built at the top of `processFirehoseMessage`: unknown
type, sequence taken from `TimeUS` verbatim, timestamp
`time.Unix(0, rawCommit.TimeUS*1000)` — the multiplication happens in
`int64` arithmetic, hence the explicit 64-bit wrap — and the raw envelope
retained. -/
def mkBaseEvent (raw : ModelsEvent) : FirehoseEvent :=
  { eventType := .unknown
    sequence := raw.timeUS
    repo := raw.did
    timestampNs := wrap64 (raw.timeUS * 1000)
    post := none
    user := none
    deleteEvent := none
    likeEvent := none
    repostEvent := none
    identityEvent := none
    accountEvent := none
    rawCommit := raw }

/-- The subset of `bsky.FeedPost` the pipeline reads after unmarshalling a
post record (facet/reply/embed sub-structures are carried opaquely by the
conversion and are elided, see `oldToNewPost`). -/
structure BskyFeedPost where
  text : String
  createdAt : String
  langs : List String
  tags : List String
deriving Repr, DecidableEq

/-- `json.Unmarshal(commit.Record, &bskyPost)` in `processPostEvent`. -/
def unmarshalFeedPost (j : Json) : Except String BskyFeedPost :=
  match j with
  | .null => .ok { text := "", createdAt := "", langs := [], tags := [] }
  | .obj fs => do
      let text ← decStrField fs "text"
      let createdAt ← decStrField fs "createdAt"
      let langs ← decStrListField fs "langs"
      let tags ← decStrListField fs "tags"
      .ok { text := text, createdAt := createdAt, langs := langs, tags := tags }
  | _ => .error "failed to unmarshal post record"

/-- `OldToNewPost` (src): parses `CreatedAt` (failure aborts with an
invalid-post error) and assembles the Firefly `FeedPost`. Facet and embed
conversion are elided: in the source they only introduce further failure
cases, each of which aborts with an error exactly like the createdAt parse
failure modelled here, and no claim inspects their output. -/
def oldToNewPost (p : BskyFeedPost) : Except String FeedPost :=
  match parseRFC3339 p.createdAt with
  | none => .error "invalid post: bad createdAt"
  | some t =>
      .ok { uri := "", cid := "", text := p.text, createdAt := t,
            languages := p.langs, tags := p.tags }

/-- The anonymous like/repost record struct in `processLikeEvent` and
`processRepostEvent`: `{subject {uri, cid}, createdAt}`. -/
structure SubjectRecord where
  subjectUri : String
  subjectCid : String
  createdAt : String
deriving Repr, DecidableEq

/-- `json.Unmarshal` of a like/repost record into the anonymous struct. -/
def unmarshalSubjectRecord (j : Json) : Except String SubjectRecord :=
  match j with
  | .null => .ok { subjectUri := "", subjectCid := "", createdAt := "" }
  | .obj fs => do
      let subj ← (match jLookup fs "subject" with
        | none => Except.ok ("", "")
        | some .null => Except.ok ("", "")
        | some (.obj sfs) => do
            let u ← decStrField sfs "uri"
            let c ← decStrField sfs "cid"
            Except.ok (u, c)
        | some _ => Except.error "json: cannot unmarshal value into subject")
      let createdAt ← decStrField fs "createdAt"
      .ok { subjectUri := subj.1, subjectCid := subj.2, createdAt := createdAt }
  | _ => .error "failed to unmarshal record"

/-- The anonymous follow record struct in `processFollowEvent`:
`{subject string, createdAt string}`. -/
structure FollowRecord where
  subject : String
  createdAt : String
deriving Repr, DecidableEq

/-- `json.Unmarshal` of a follow record into the anonymous struct. -/
def unmarshalFollowRecord (j : Json) : Except String FollowRecord :=
  match j with
  | .null => .ok { subject := "", createdAt := "" }
  | .obj fs => do
      let subject ← decStrField fs "subject"
      let createdAt ← decStrField fs "createdAt"
      .ok { subject := subject, createdAt := createdAt }
  | _ => .error "failed to unmarshal follow record"

/-- The subset of `bsky.ActorProfile` read by `processProfileEvent`:
optional display name and optional avatar blob reference (the blob is
carried only as its ref string). -/
structure ActorProfile where
  displayName : Option String
  avatar : Option String
deriving Repr, DecidableEq

/-- `json.Unmarshal` of a profile record into `bsky.ActorProfile`. -/
def unmarshalActorProfile (j : Json) : Except String ActorProfile :=
  match j with
  | .null => .ok { displayName := none, avatar := none }
  | .obj fs => do
      let displayName ← decOptStrField fs "displayName"
      let avatar ← decOptStrField fs "avatar"
      .ok { displayName := displayName, avatar := avatar }
  | _ => .error "failed to unmarshal profile record"

/-- The subset of `bsky.ActorDefs_ProfileViewBasic` used by the pipeline. -/
structure ProfileViewBasic where
  did : String
  handle : String
  displayName : Option String
  avatar : Option String
  createdAt : Option String
deriving Repr, DecidableEq

/-- `OldToNewUserBasic` (src/users.go): dereferences `CreatedAt` (a nil
pointer would panic in Go — modelled as an error, unreachable from the
pipeline, which always sets it) and parses it. -/
def oldToNewUserBasic (p : ProfileViewBasic) : Except String User :=
  match p.createdAt with
  | none => .error "nil CreatedAt dereference"
  | some s =>
      match parseRFC3339 s with
      | none => .error "invalid user: bad createdAt"
      | some t =>
          .ok { did := p.did, handle := p.handle, displayName := p.displayName,
                avatar := p.avatar, createdAt := t }

/-- `processPostEvent` (src/users.go): a delete operation yields a deletion
sub-event built from collection, rkey and the synthesized at:// URI,
ignoring the record payload; any other operation requires a record, which
is unmarshalled and converted, and yields a post event. -/
def processPostEvent (event : FirehoseEvent) (c : Commit) :
    Except String FirehoseEvent :=
  if c.operation = "delete" then
    .ok { event with
          eventType := .delete
          deleteEvent := some { collection := c.collection, recordKey := c.rkey,
                                uri := atURI event.repo c.collection c.rkey } }
  else
    match c.record with
    | none => .error "post event missing record data"
    | some rec =>
        match unmarshalFeedPost rec with
        | .error e => .error ("failed to unmarshal post record: " ++ e)
        | .ok bskyPost =>
            match oldToNewPost bskyPost with
            | .error e => .error ("failed to convert post: " ++ e)
            | .ok p =>
                .ok { event with
                      eventType := .post
                      post := some { p with
                                     uri := atURI event.repo c.collection c.rkey
                                     cid := c.cid } }

/-- `processLikeEvent` (src/users.go). -/
def processLikeEvent (event : FirehoseEvent) (c : Commit) :
    Except String FirehoseEvent :=
  if c.operation = "delete" then
    .ok { event with
          eventType := .delete
          deleteEvent := some { collection := c.collection, recordKey := c.rkey,
                                uri := atURI event.repo c.collection c.rkey } }
  else
    match c.record with
    | none => .error "like event missing record data"
    | some rec =>
        match unmarshalSubjectRecord rec with
        | .error e => .error ("failed to unmarshal like record: " ++ e)
        | .ok r =>
            .ok { event with
                  eventType := .like
                  likeEvent := some
                    { subject := some { uri := r.subjectUri, cid := r.subjectCid }
                      uri := atURI event.repo c.collection c.rkey } }

/-- `processRepostEvent` (src/users.go). -/
def processRepostEvent (event : FirehoseEvent) (c : Commit) :
    Except String FirehoseEvent :=
  if c.operation = "delete" then
    .ok { event with
          eventType := .delete
          deleteEvent := some { collection := c.collection, recordKey := c.rkey,
                                uri := atURI event.repo c.collection c.rkey } }
  else
    match c.record with
    | none => .error "repost event missing record data"
    | some rec =>
        match unmarshalSubjectRecord rec with
        | .error e => .error ("failed to unmarshal repost record: " ++ e)
        | .ok r =>
            .ok { event with
                  eventType := .repost
                  repostEvent := some
                    { subject := some { uri := r.subjectUri, cid := r.subjectCid }
                      uri := atURI event.repo c.collection c.rkey } }

/-- `processFollowEvent` (src/users.go). -/
def processFollowEvent (event : FirehoseEvent) (c : Commit) :
    Except String FirehoseEvent :=
  if c.operation = "delete" then
    .ok { event with
          eventType := .delete
          deleteEvent := some { collection := c.collection, recordKey := c.rkey,
                                uri := atURI event.repo c.collection c.rkey } }
  else
    match c.record with
    | none => .error "follow event missing record data"
    | some rec =>
        match unmarshalFollowRecord rec with
        | .error e => .error ("failed to unmarshal follow record: " ++ e)
        | .ok r =>
            .ok { event with
                  eventType := .follow
                  user := some { did := r.subject, handle := "",
                                 displayName := none, avatar := none,
                                 createdAt := 0 } }

/-- `processProfileEvent` (src/users.go): formats the event timestamp back
into an RFC3339 string, builds a basic profile view and converts it via
`OldToNewUserBasic`. -/
def processProfileEvent (event : FirehoseEvent) (c : Commit) :
    Except String FirehoseEvent :=
  if c.operation = "delete" then
    .ok { event with
          eventType := .delete
          deleteEvent := some { collection := c.collection, recordKey := c.rkey,
                                uri := atURI event.repo c.collection c.rkey } }
  else
    match c.record with
    | none => .error "profile event missing record data"
    | some rec =>
        match unmarshalActorProfile rec with
        | .error e => .error ("failed to unmarshal profile record: " ++ e)
        | .ok prof =>
            let indexedAtStr := formatRFC3339 event.timestampNs
            let pvb : ProfileViewBasic :=
              { did := event.repo, handle := "",
                displayName := prof.displayName, avatar := prof.avatar,
                createdAt := some indexedAtStr }
            match oldToNewUserBasic pvb with
            | .error e => .error ("failed to convert profile: " ++ e)
            | .ok u =>
                .ok { event with eventType := .profile, user := some u }

/-- `processCommitEvent` (src/users.go): exact string dispatch on the
collection; unrecognized collections fall through to an unknown-typed event
rather than an error. -/
def processCommitEvent (event : FirehoseEvent) (raw : ModelsEvent) :
    Except String FirehoseEvent :=
  match raw.commit with
  | none => .error "commit event missing commit data"
  | some c =>
      match c.collection with
      | "app.bsky.feed.post" => processPostEvent event c
      | "app.bsky.feed.like" => processLikeEvent event c
      | "app.bsky.feed.repost" => processRepostEvent event c
      | "app.bsky.graph.follow" => processFollowEvent event c
      | "app.bsky.actor.profile" => processProfileEvent event c
      | _ => .ok { event with eventType := .unknown }

/-- `processIdentityEvent` (src/users.go): builds both a `User` and a
`FirehoseIdentity` sub-event from the envelope's identity payload. -/
def processIdentityEvent (event : FirehoseEvent) (raw : ModelsEvent) :
    Except String FirehoseEvent :=
  match raw.identity with
  | none => .error "identity event missing identity data"
  | some idn =>
      let handle := idn.handle.getD ""
      let user : User :=
        { did := idn.did, handle := handle, displayName := none,
          avatar := none, createdAt := 0 }
      let time := (parseRFC3339 idn.time).getD 0
      .ok { event with
            eventType := .identity
            user := some user
            identityEvent := some { did := idn.did, handle := handle,
                                    seq := idn.seq, time := time } }

/-- `processAccountEvent` (src/users.go): builds both a `User` and a
`FirehoseAccount` sub-event from the envelope's account payload. -/
def processAccountEvent (event : FirehoseEvent) (raw : ModelsEvent) :
    Except String FirehoseEvent :=
  match raw.account with
  | none => .error "account event missing account data"
  | some acc =>
      let user : User :=
        { did := acc.did, handle := "", displayName := none, avatar := none,
          createdAt := 0 }
      let time := (parseRFC3339 acc.time).getD 0
      .ok { event with
            eventType := .account
            user := some user
            accountEvent := some { did := acc.did, active := acc.active,
                                   seq := acc.seq, status := acc.status.getD "",
                                   time := time } }

/-- The dispatch half of `processFirehoseMessage`: build the base event and
branch on the envelope kind; any unrecognized kind returns the base event
as-is ("Unknown event type, return as-is"). -/
def processEnvelope (raw : ModelsEvent) : Except String FirehoseEvent :=
  let event := mkBaseEvent raw
  match raw.kind with
  | "commit" => processCommitEvent event raw
  | "identity" => processIdentityEvent event raw
  | "account" => processAccountEvent event raw
  | _ => .ok event

/-- `processFirehoseMessage` (src): unmarshal the raw message, then classify.
The Go function inlines both halves; they are split here so the decoder can
be discussed on its own. -/
def processFirehoseMessage (p : WirePayload) : Except String FirehoseEvent :=
  match unmarshalEvent p with
  | .error e => .error e
  | .ok raw => processEnvelope raw

/-- The collections `processCommitEvent` recognises, in source order. -/
def recognizedCollections : List String :=
  ["app.bsky.feed.post", "app.bsky.feed.like", "app.bsky.feed.repost",
   "app.bsky.graph.follow", "app.bsky.actor.profile"]

/-! ## Connection supervisor (`maintainFirehoseConnection`) -/

/-- The outcome of one `connectFirehose` call, as observed by
`maintainFirehoseConnection`. A dial failure and a mid-stream read failure
both surface as a non-nil error; `connectFirehose` returns nil exactly when
the context is cancelled inside its read loop (there is no other nil-return
path in the source), after which the supervisor loop itself observes the
cancellation and exits. A `readDisconnect` outcome means the handshake
completed and streaming began before the connection was lost. -/
inductive ConnectOutcome where
  | dialFail
  | readDisconnect
  | cancelled
deriving Repr, DecidableEq

/-- `backoff := time.Second`, in seconds. -/
def floorBackoff : Nat := 1

/-- `maxBackoff := time.Minute * 2`, in seconds. -/
def maxBackoff : Nat := 120

/-- The backoff update after a failed attempt:
`if backoff < maxBackoff { backoff *= 2 }`. -/
def failStep (b : Nat) : Nat :=
  if b < maxBackoff then b * 2 else b

/-- A run of the supervisor loop from backoff `b` over a sequence of
connection outcomes. On an error outcome the loop waits the current backoff
and then applies `failStep`; on a nil return (cancellation) it resets the
backoff to the floor and the loop terminates at its next `ctx.Done` check.
Returns the final backoff and the list of observed backoff waits. -/
def supervisorRun : Nat → List ConnectOutcome → Nat × List Nat
  | b, [] => (b, [])
  | _, .cancelled :: _ => (floorBackoff, [])
  | b, .dialFail :: rest =>
      let r := supervisorRun (failStep b) rest
      (r.1, b :: r.2)
  | b, .readDisconnect :: rest =>
      let r := supervisorRun (failStep b) rest
      (r.1, b :: r.2)

/-- The backoff waits observed over a fresh supervisor run. -/
def supervisorWaits (outcomes : List ConnectOutcome) : List Nat :=
  (supervisorRun floorBackoff outcomes).2

/-- The backoff value after `n` consecutive connection failures, starting
from a fresh supervisor. -/
def backoffAfter (n : Nat) : Nat :=
  (supervisorRun floorBackoff (List.replicate n .dialFail)).1

/-! ## Delivery queue (`StreamEvents` / `connectFirehose`) -/

/-- The delivery queue: the buffered channel created by `StreamEvents`,
holding events in receipt order up to its capacity. -/
structure DeliveryQueue where
  cap : Nat
  buf : List FirehoseEvent
deriving Repr

/-- The non-blocking enqueue in `connectFirehose`'s read loop: a select with
a default branch, so the call always returns at once; when the channel
buffer is full the newly arrived event is discarded ("Channel is full, drop
the event"). -/
def tryEnqueue (q : DeliveryQueue) (e : FirehoseEvent) : DeliveryQueue :=
  if q.buf.length < q.cap then { q with buf := q.buf ++ [e] } else q

/-! ## Background error sink (`ErrorChan`) -/

/-- How a site sends on `ErrorChan`: through a select with a default branch,
or through a plain (potentially blocking) channel send. -/
inductive SendStyle where
  | selectDefault
  | plain
deriving Repr, DecidableEq

/-- The sites that produce errors for `ErrorChan`. -/
inductive ErrorPath where
  | firehoseConnectFailure
  | invalidEventError
  | scheduledRefreshFailure
  | manualRefreshFailure
deriving Repr, DecidableEq

/-- The send style at each site, read off the source: the two firehose
sites (`maintainFirehoseConnection`, `connectFirehose`) use select-with-
default; `scheduleSessionRefresh` and `RefreshSession` (src/firefly.go) use
a plain `f.ErrorChan <- err` send. -/
def sendStyleOf : ErrorPath → SendStyle
  | .firehoseConnectFailure => .selectDefault
  | .invalidEventError => .selectDefault
  | .scheduledRefreshFailure => .plain
  | .manualRefreshFailure => .plain

/-- `make(chan error)` in `NewCustomInstance`: the error sink is unbuffered. -/
def errorChanCapacity : Nat := 0

/-- What happens to one send. -/
inductive SendOutcome where
  | delivered
  | dropped
  | blocked
deriving Repr, DecidableEq

/-- Semantics of a single send when `free` receive slots are available
(buffer space plus ready receivers): with a free slot every style delivers;
with none, a select-with-default drops the error and returns, while a plain
send blocks until a receiver appears. -/
def sendToErrorChan : SendStyle → Nat → SendOutcome
  | _, _ + 1 => .delivered
  | .selectDefault, 0 => .dropped
  | .plain, 0 => .blocked

/-! ## Stream start (`StreamEvents`) -/

/-- `FirehoseOptions` from the source. `bufferSize` is a Go `int`. -/
structure FirehoseOptions where
  collections : List String
  authors : List String
  cursor : Option Int
  bufferSize : Int
  compression : Bool
  requireHello : Bool
deriving Repr, DecidableEq

/-- The default collection filters substituted for an empty set. -/
def defaultCollections : List String :=
  ["app.bsky.feed.post", "app.bsky.feed.like", "app.bsky.feed.repost",
   "app.bsky.graph.follow"]

/-- The observable result of `StreamEvents`: the capacity of the delivery
channel it allocates, the effective collection filters, and the error
component of its return value. -/
structure StreamStart where
  queueCapacity : Nat
  collections : List String
  startError : Option String
deriving Repr, DecidableEq

/-- `StreamEvents` (src): nil options are replaced by the zero options, a
non-positive buffer size defaults to 1000, an empty collection filter set
defaults to the four core collections, the buffered channel is allocated
and the supervisor goroutine started; the function then returns the channel
and a nil error — there is no error-returning path. -/
def streamEvents (options : Option FirehoseOptions) : StreamStart :=
  let o := options.getD
    { collections := [], authors := [], cursor := none, bufferSize := 0,
      compression := false, requireHello := false }
  let o := if o.bufferSize ≤ 0 then { o with bufferSize := 1000 } else o
  let o := if o.collections.isEmpty then { o with collections := defaultCollections }
           else o
  { queueCapacity := o.bufferSize.toNat
    collections := o.collections
    startError := none }

/-! ## Backoff lemmas -/

lemma supervisorRun_replicate_fst (n : Nat) :
    ∀ b, (supervisorRun b (List.replicate n ConnectOutcome.dialFail)).1 =
      failStep^[n] b := by
  induction n with
  | zero => intro b; simp [supervisorRun]
  | succ n ih =>
      intro b
      rw [List.replicate_succ]
      show (supervisorRun (failStep b) (List.replicate n ConnectOutcome.dialFail)).1 =
        failStep^[n + 1] b
      rw [ih (failStep b), ← Function.iterate_succ_apply]

lemma backoffAfter_eq_iterate (n : Nat) : backoffAfter n = failStep^[n] 1 :=
  supervisorRun_replicate_fst n 1

lemma backoffAfter_closed (n : Nat) : backoffAfter n = 2 ^ min n 7 := by
  rw [backoffAfter_eq_iterate]
  induction n with
  | zero => simp
  | succ n ih =>
      rw [Function.iterate_succ_apply', ih]
      rcases le_or_lt n 6 with h | h
      · have hmin : min n 7 = n := by omega
        have hmin2 : min (n + 1) 7 = n + 1 := by omega
        rw [hmin, hmin2]
        have hle : 2 ^ n ≤ 2 ^ 6 := Nat.pow_le_pow_right (by norm_num) h
        have hlt : 2 ^ n < maxBackoff := by
          simp only [maxBackoff]; omega
        simp only [failStep, if_pos hlt, pow_succ]
      · have hmin : min n 7 = 7 := by omega
        have hmin2 : min (n + 1) 7 = 7 := by omega
        rw [hmin, hmin2]
        simp only [failStep, maxBackoff]
        norm_num

/-- Claim C1: the spec says the backoff resets to its floor after a
successful connection (handshake completed, streaming began), so the first
failure after a success waits the floor again. In the source, the reset
`backoff = time.Second` runs only when `connectFirehose` returns nil, which
happens only on context cancellation; a successful connection that later
disconnects returns a non-nil error, so the supervisor keeps doubling.
Evaluated on two dial failures followed by a successful-then-disconnected
connection: the observed waits are 1s, 2s, 4s (the spec requires 1s, 2s,
1s) and the stored backoff afterwards is 8s, not the 1s floor. -/
theorem backoff_not_reset_after_successful_connection :
    supervisorWaits [ConnectOutcome.dialFail, ConnectOutcome.dialFail,
      ConnectOutcome.readDisconnect] = [1, 2, 4] ∧
    (supervisorRun floorBackoff [ConnectOutcome.dialFail, ConnectOutcome.dialFail,
      ConnectOutcome.readDisconnect]).1 = 8 := by
  constructor <;> decide

/-- Claim C2 (counterexample): the backoff is claimed never to exceed the
120-second ceiling, but after seven consecutive failures it reaches 128
seconds, and the eighth failure's observed wait is 128 seconds: doubling is
gated on `backoff < maxBackoff` *before* doubling, so the last doubling
jumps from 64 to 128. -/
theorem backoff_exceeds_120s :
    backoffAfter 7 = 128 ∧ maxBackoff < backoffAfter 7 ∧
    supervisorWaits (List.replicate 8 ConnectOutcome.dialFail) =
      [1, 2, 4, 8, 16, 32, 64, 128] := by
  refine ⟨?_, ?_, ?_⟩ <;> decide

/-- Claim C2 (amended): across consecutive connection failures the backoff
starts at the 1-second floor, never decreases, doubles whenever it is still
below the 120-second threshold, and never exceeds 128 seconds (the first
doubled value at or above the threshold); the retry count is uncapped — the
trace functions are total over arbitrarily long failure sequences. -/
theorem backoff_monotone_doubling_capped :
    backoffAfter 0 = floorBackoff ∧
    ∀ n, backoffAfter n ≤ 128 ∧ backoffAfter n ≤ backoffAfter (n + 1) ∧
      (backoffAfter n < maxBackoff → backoffAfter (n + 1) = 2 * backoffAfter n) := by
  constructor
  · decide
  · intro n
    have h1 := backoffAfter_closed n
    have h2 := backoffAfter_closed (n + 1)
    refine ⟨?_, ?_, ?_⟩
    · rw [h1]
      calc 2 ^ min n 7 ≤ 2 ^ 7 := Nat.pow_le_pow_right (by norm_num) (min_le_right _ _)
        _ = 128 := by norm_num
    · rw [h1, h2]
      exact Nat.pow_le_pow_right (by norm_num) (by omega)
    · intro hlt
      rw [h1] at hlt
      simp only [maxBackoff] at hlt
      have hn : n ≤ 6 := by
        by_contra hc
        have hm : min n 7 = 7 := by omega
        rw [hm] at hlt
        norm_num at hlt
      have hm1 : min n 7 = n := by omega
      have hm2 : min (n + 1) 7 = n + 1 := by omega
      rw [h1, h2, hm1, hm2, pow_succ]
      ring

/-- Claim C2 (witness): at six prior failures the backoff is 64 ≤ 128 and
the seventh failure doubles it. -/
theorem backoff_monotone_doubling_capped_witness :
    backoffAfter 7 = 2 * backoffAfter 6 ∧ backoffAfter 6 ≤ 128 :=
  ⟨(backoff_monotone_doubling_capped.2 6).2.2 (by decide),
   (backoff_monotone_doubling_capped.2 6).1⟩

/-! ## Classification theorems -/

/-- Claim C3: for every envelope of a recognized collection whose declared
operation is "delete", classification produces a record-deleted Domain
Event whose deletion sub-event carries the collection, the record key, and
the content address `at://identity/collection/recordKey`, regardless of the
record payload carried by the commit. -/
theorem delete_event_content_address :
    ∀ (raw : ModelsEvent) (c : Commit),
      raw.kind = "commit" → raw.commit = some c →
      c.collection ∈ recognizedCollections → c.operation = "delete" →
      processEnvelope raw = .ok
        { mkBaseEvent raw with
          eventType := FirehoseEventType.delete
          deleteEvent := some
            { collection := c.collection, recordKey := c.rkey,
              uri := atURI raw.did c.collection c.rkey } } := by
  intro raw c hk hc hmem hop
  obtain ⟨did, timeUS, kind, commit, identity, account⟩ := raw
  simp only at hk hc
  subst hk
  subst hc
  obtain ⟨rev, op, coll, rkey, rec, cid⟩ := c
  simp only at hop hmem
  subst hop
  simp only [recognizedCollections, List.mem_cons, List.not_mem_nil, or_false] at hmem
  rcases hmem with h | h | h | h | h <;> subst h <;> rfl

/-- Example envelope for the Claim C3 witness: the scenario from the spec
with identity `id-123`, a post-collection delete of key `abc`. -/
def deleteMsgRaw : ModelsEvent :=
  { did := "id-123", timeUS := 5, kind := "commit",
    commit := some { rev := "", operation := "delete",
                     collection := "app.bsky.feed.post", rkey := "abc",
                     record := none, cid := "" },
    identity := none, account := none }

/-- Claim C3 (witness): the spec's delete scenario evaluated concretely;
the synthesized content address is `at://id-123/app.bsky.feed.post/abc`. -/
theorem delete_event_content_address_witness :
    processEnvelope deleteMsgRaw = .ok
      { mkBaseEvent deleteMsgRaw with
        eventType := FirehoseEventType.delete
        deleteEvent := some
          { collection := "app.bsky.feed.post", recordKey := "abc",
            uri := "at://id-123/app.bsky.feed.post/abc" } } :=
  delete_event_content_address deleteMsgRaw _ rfl rfl
    (by simp [recognizedCollections]) rfl

/-- Claim C4: for every decoded envelope whose top-level kind is not
commit/identity/account, and for every commit envelope whose collection is
outside the recognized set, classification succeeds with an "unrecognized"
(unknown-typed) event that retains the original envelope — never an error. -/
theorem unrecognized_yields_unknown_event :
    ∀ raw : ModelsEvent,
      (mkBaseEvent raw).eventType = FirehoseEventType.unknown ∧
      (mkBaseEvent raw).rawCommit = raw ∧
      (raw.kind ∉ (["commit", "identity", "account"] : List String) →
        processEnvelope raw = .ok (mkBaseEvent raw)) ∧
      (∀ c : Commit, raw.kind = "commit" → raw.commit = some c →
        c.collection ∉ recognizedCollections →
        processEnvelope raw = .ok (mkBaseEvent raw)) := by
  intro raw
  refine ⟨rfl, rfl, ?_, ?_⟩
  · intro hmem
    simp only [List.mem_cons, List.not_mem_nil, or_false, not_or] at hmem
    obtain ⟨h1, h2, h3⟩ := hmem
    simp only [processEnvelope]
  · intro c hk hc hmem
    simp only [recognizedCollections, List.mem_cons, List.not_mem_nil, or_false,
      not_or] at hmem
    obtain ⟨h1, h2, h3, h4, h5⟩ := hmem
    simp only [processEnvelope]
    rw [hk]
    simp only [processCommitEvent]
    rw [hc]
    simp only
    rfl

/-- Example envelope with an unrecognized top-level kind. -/
def weirdKindRaw : ModelsEvent :=
  { did := "did:plc:a", timeUS := 1, kind := "takedown", commit := none,
    identity := none, account := none }

/-- Example commit envelope with an unrecognized collection. -/
def weirdCollectionRaw : ModelsEvent :=
  { did := "did:plc:b", timeUS := 2, kind := "commit",
    commit := some { rev := "", operation := "create",
                     collection := "app.bsky.feed.generator", rkey := "k",
                     record := none, cid := "" },
    identity := none, account := none }

/-- Claim C4 (witness): both unrecognized shapes evaluated concretely. -/
theorem unrecognized_yields_unknown_event_witness :
    processEnvelope weirdKindRaw = .ok (mkBaseEvent weirdKindRaw) ∧
    processEnvelope weirdCollectionRaw = .ok (mkBaseEvent weirdCollectionRaw) :=
  ⟨(unrecognized_yields_unknown_event weirdKindRaw).2.2.1 (by simp [weirdKindRaw]),
   (unrecognized_yields_unknown_event weirdCollectionRaw).2.2.2 _ rfl rfl
     (by simp [recognizedCollections, weirdCollectionRaw])⟩

/-- Example identity envelope: the Claim C5 failing input. -/
def identityMsgRaw : ModelsEvent :=
  { did := "did:plc:alice", timeUS := 7, kind := "identity", commit := none,
    identity := some { did := "did:plc:alice", handle := some "alice.test",
                       seq := 3, time := "2024-01-01T00:00:00Z" },
    account := none }

/-- Example account envelope, populating two payload fields as well. -/
def accountMsgRaw : ModelsEvent :=
  { did := "did:plc:carol", timeUS := 9, kind := "account", commit := none,
    identity := none,
    account := some { active := true, did := "did:plc:carol", seq := 4,
                      status := none, time := "2024-01-01T00:00:00Z" } }

/-- Claim C5: the spec (and the struct's own comment "only one will be
populated") require exactly one populated kind-specific payload per event.
The classifier violates this on both sides: an identity envelope yields an
event with two populated payloads (`user` and `identityEvent`), an account
envelope likewise (`user` and `accountEvent`), and an envelope of an
unrecognized kind yields an event with zero populated payloads. -/
theorem identity_event_populates_two_payloads :
    (processEnvelope identityMsgRaw).map populatedPayloadCount = .ok 2 ∧
    (processEnvelope accountMsgRaw).map populatedPayloadCount = .ok 2 ∧
    (processEnvelope weirdKindRaw).map populatedPayloadCount = .ok 0 := by
  refine ⟨rfl, rfl, rfl⟩

/-! ## Wire decoder theorems -/

/-- The zero-valued envelope: what Go leaves behind for `{}`. -/
def zeroEnvelope : ModelsEvent :=
  { did := "", timeUS := 0, kind := "", commit := none, identity := none,
    account := none }

/-- Claim C6 (counterexample): the decoder is claimed to fail on any
well-formed payload missing the kind/time/identity fields, but Go's
`json.Unmarshal` never fails on missing object keys: the well-formed
payload `{}` — missing all three — decodes to the zero envelope, and the
pipeline then classifies it as an unrecognized event rather than erroring. -/
theorem decoder_accepts_missing_fields :
    unmarshalEvent (WirePayload.wellFormed (Json.obj [])) = .ok zeroEnvelope ∧
    processFirehoseMessage (WirePayload.wellFormed (Json.obj [])) =
      .ok (mkBaseEvent zeroEnvelope) := by
  exact ⟨rfl, rfl⟩

/-- Remove every binding for the keys in `ks` from an object payload:
the wire form of "the payload is missing those fields". -/
def eraseKeys (ks : List String) (fs : List (String × Json)) :
    List (String × Json) :=
  fs.filter (fun p => decide (p.1 ∉ ks))

lemma find?_filter_congr {α : Type} (l : List α) (p q : α → Bool)
    (hpq : ∀ x, p x = true → q x = true) :
    (l.filter q).find? p = l.find? p := by
  induction l with
  | nil => rfl
  | cons a l ih =>
      by_cases hq : q a = true
      · rw [List.filter_cons_of_pos hq]
        by_cases hp : p a = true
        · rw [List.find?_cons_of_pos _ hp, List.find?_cons_of_pos _ hp]
        · rw [List.find?_cons_of_neg _ hp, List.find?_cons_of_neg _ hp, ih]
      · have hp : ¬ p a = true := fun hc => hq (hpq a hc)
        rw [List.filter_cons_of_neg hq, List.find?_cons_of_neg _ hp, ih]

lemma jLookup_eraseKeys_mem (ks : List String) (fs : List (String × Json))
    (k : String) (h : k ∈ ks) : jLookup (eraseKeys ks fs) k = none := by
  have hfind : ((eraseKeys ks fs).reverse.find? (fun p => p.1 == k)) = none := by
    rw [List.find?_eq_none]
    intro x hx hpx
    rw [List.mem_reverse] at hx
    simp only [eraseKeys, List.mem_filter, decide_eq_true_eq] at hx
    have hxk : x.1 = k := by simpa using hpx
    exact hx.2 (hxk ▸ h)
  unfold jLookup
  rw [hfind]
  rfl

lemma jLookup_eraseKeys_not_mem (ks : List String) (fs : List (String × Json))
    (k : String) (h : k ∉ ks) : jLookup (eraseKeys ks fs) k = jLookup fs k := by
  unfold jLookup eraseKeys
  rw [← List.filter_reverse, find?_filter_congr]
  intro x hpx
  have hxk : x.1 = k := by simpa using hpx
  rw [decide_eq_true_eq, hxk]
  exact h

lemma decStrField_eraseKeys (ks : List String) (fs : List (String × Json))
    (k : String) :
    decStrField (eraseKeys ks fs) k =
      if k ∈ ks then Except.ok "" else decStrField fs k := by
  by_cases h : k ∈ ks
  · rw [if_pos h]
    unfold decStrField
    rw [jLookup_eraseKeys_mem ks fs k h]
  · rw [if_neg h]
    unfold decStrField
    rw [jLookup_eraseKeys_not_mem ks fs k h]

lemma decIntField_eraseKeys (ks : List String) (fs : List (String × Json))
    (k : String) :
    decIntField (eraseKeys ks fs) k =
      if k ∈ ks then Except.ok 0 else decIntField fs k := by
  by_cases h : k ∈ ks
  · rw [if_pos h]
    unfold decIntField
    rw [jLookup_eraseKeys_mem ks fs k h]
  · rw [if_neg h]
    unfold decIntField
    rw [jLookup_eraseKeys_not_mem ks fs k h]

lemma decCommitField_eraseKeys (ks : List String) (fs : List (String × Json))
    (h : "commit" ∉ ks) :
    decCommitField (eraseKeys ks fs) = decCommitField fs := by
  unfold decCommitField
  rw [jLookup_eraseKeys_not_mem ks fs _ h]

lemma decIdentityField_eraseKeys (ks : List String) (fs : List (String × Json))
    (h : "identity" ∉ ks) :
    decIdentityField (eraseKeys ks fs) = decIdentityField fs := by
  unfold decIdentityField
  rw [jLookup_eraseKeys_not_mem ks fs _ h]

lemma decAccountField_eraseKeys (ks : List String) (fs : List (String × Json))
    (h : "account" ∉ ks) :
    decAccountField (eraseKeys ks fs) = decAccountField fs := by
  unfold decAccountField
  rw [jLookup_eraseKeys_not_mem ks fs _ h]

lemma unmarshalEvent_obj (fs : List (String × Json)) :
    unmarshalEvent (.wellFormed (.obj fs)) =
      Except.bind (decStrField fs "did") (fun did =>
        Except.bind (decIntField fs "time_us") (fun timeUS =>
          Except.bind (decStrField fs "kind") (fun kind =>
            Except.bind (decCommitField fs) (fun commit =>
              Except.bind (decIdentityField fs) (fun identity =>
                Except.bind (decAccountField fs) (fun account =>
                  Except.ok { did := did, timeUS := timeUS, kind := kind,
                              commit := commit, identity := identity,
                              account := account })))))) := rfl

lemma exceptBind_ok {α β : Type} (a : α) (f : α → Except String β) :
    Except.bind (Except.ok a) f = f a := rfl

lemma exceptBind_error {α β : Type} (e : String) (f : α → Except String β) :
    Except.bind (Except.error e) f = Except.error e := rfl

/-- Claim C6 (amended): the decoder fails with a decode error on every
payload that is not well-formed structured data; but a well-formed payload
missing the kind, time-marker, or originating-identity fields is not
rejected for that reason: removing any subset of the `did`/`time_us`/`kind`
bindings from any payload that decodes leaves it decodable — the removed
fields take their Go zero values — and a generic envelope is still
produced. -/
theorem decoder_error_conditions :
    unmarshalEvent WirePayload.malformed =
      .error "failed to unmarshal jetstream message" ∧
    (∀ (ks : List String) (fs : List (String × Json)) (raw : ModelsEvent),
      ks ⊆ ["did", "time_us", "kind"] →
      unmarshalEvent (.wellFormed (.obj fs)) = .ok raw →
      unmarshalEvent (.wellFormed (.obj (eraseKeys ks fs))) = .ok
        { did := if "did" ∈ ks then "" else raw.did
          timeUS := if "time_us" ∈ ks then 0 else raw.timeUS
          kind := if "kind" ∈ ks then "" else raw.kind
          commit := raw.commit
          identity := raw.identity
          account := raw.account }) := by
  constructor
  · rfl
  · intro ks fs raw hsub h
    have hcom : "commit" ∉ ks := fun hm => by simpa using hsub hm
    have hidf : "identity" ∉ ks := fun hm => by simpa using hsub hm
    have hacf : "account" ∉ ks := fun hm => by simpa using hsub hm
    rw [unmarshalEvent_obj] at h
    obtain ⟨d, hdid⟩ : ∃ v, decStrField fs "did" = .ok v := by
      cases hx : decStrField fs "did" with
      | error e => rw [hx, exceptBind_error] at h; exact Except.noConfusion h
      | ok v => exact ⟨v, rfl⟩
    rw [hdid, exceptBind_ok] at h
    obtain ⟨t, htime⟩ : ∃ v, decIntField fs "time_us" = .ok v := by
      cases hx : decIntField fs "time_us" with
      | error e => rw [hx, exceptBind_error] at h; exact Except.noConfusion h
      | ok v => exact ⟨v, rfl⟩
    rw [htime, exceptBind_ok] at h
    obtain ⟨k, hkind⟩ : ∃ v, decStrField fs "kind" = .ok v := by
      cases hx : decStrField fs "kind" with
      | error e => rw [hx, exceptBind_error] at h; exact Except.noConfusion h
      | ok v => exact ⟨v, rfl⟩
    rw [hkind, exceptBind_ok] at h
    obtain ⟨c, hc⟩ : ∃ v, decCommitField fs = .ok v := by
      cases hx : decCommitField fs with
      | error e => rw [hx, exceptBind_error] at h; exact Except.noConfusion h
      | ok v => exact ⟨v, rfl⟩
    rw [hc, exceptBind_ok] at h
    obtain ⟨i, hi⟩ : ∃ v, decIdentityField fs = .ok v := by
      cases hx : decIdentityField fs with
      | error e => rw [hx, exceptBind_error] at h; exact Except.noConfusion h
      | ok v => exact ⟨v, rfl⟩
    rw [hi, exceptBind_ok] at h
    obtain ⟨a, ha⟩ : ∃ v, decAccountField fs = .ok v := by
      cases hx : decAccountField fs with
      | error e => rw [hx, exceptBind_error] at h; exact Except.noConfusion h
      | ok v => exact ⟨v, rfl⟩
    rw [ha, exceptBind_ok] at h
    cases h
    rw [unmarshalEvent_obj]
    rw [decStrField_eraseKeys, decIntField_eraseKeys, decStrField_eraseKeys,
        decCommitField_eraseKeys ks fs hcom, decIdentityField_eraseKeys ks fs hidf,
        decAccountField_eraseKeys ks fs hacf, hdid, htime, hkind, hc, hi, ha]
    by_cases h1 : "did" ∈ ks <;> by_cases h2 : "time_us" ∈ ks <;>
      by_cases h3 : "kind" ∈ ks <;>
      simp [h1, h2, h3, exceptBind_ok]

/-- Claim C6 (witness): the amended statement at the two shapes the claim
is about — a payload missing only its `kind` binding, and one missing all
of `did`/`time_us`/`kind` while still carrying a commit object; both decode
with zero values for the missing fields. -/
theorem decoder_error_conditions_witness :
    unmarshalEvent (.wellFormed (.obj (eraseKeys ["kind"]
        [("did", Json.str "d"), ("time_us", Json.num 1),
         ("kind", Json.str "commit")]))) =
      .ok { did := "d", timeUS := 1, kind := "", commit := none,
            identity := none, account := none } ∧
    unmarshalEvent (.wellFormed (.obj (eraseKeys ["did", "time_us", "kind"]
        [("kind", Json.str "account"),
         ("commit", Json.obj [("collection", Json.str "x")])]))) =
      .ok { did := "", timeUS := 0, kind := "",
            commit := some { rev := "", operation := "", collection := "x",
                             rkey := "", record := none, cid := "" },
            identity := none, account := none } :=
  ⟨decoder_error_conditions.2 ["kind"]
      [("did", Json.str "d"), ("time_us", Json.num 1),
       ("kind", Json.str "commit")]
      { did := "d", timeUS := 1, kind := "commit", commit := none,
        identity := none, account := none }
      (by decide) rfl,
   decoder_error_conditions.2 ["did", "time_us", "kind"]
      [("kind", Json.str "account"),
       ("commit", Json.obj [("collection", Json.str "x")])]
      { did := "", timeUS := 0, kind := "account",
        commit := some { rev := "", operation := "", collection := "x",
                         rkey := "", record := none, cid := "" },
        identity := none, account := none }
      (by decide) rfl⟩

/-! ## Delivery queue and error sink theorems -/

/-- Claim C7: the delivery queue's enqueue is a total function (the select
in the read loop has a default branch, so it returns at once); if the
queue holds fewer than its capacity the event is appended in order, and if
it is full the queue is left exactly as it was — the newly arrived event is
the one discarded, never an oldest queued one — so the size never exceeds
the capacity. -/
theorem delivery_queue_drop_newest :
    ∀ (q : DeliveryQueue) (e : FirehoseEvent),
      q.buf.length ≤ q.cap →
      ((tryEnqueue q e).buf.length ≤ q.cap ∧
       (q.buf.length = q.cap → tryEnqueue q e = q) ∧
       (q.buf.length < q.cap → (tryEnqueue q e).buf = q.buf ++ [e])) := by
  intro q e h
  unfold tryEnqueue
  by_cases hlt : q.buf.length < q.cap
  · simp only [if_pos hlt, List.length_append, List.length_cons,
      List.length_nil]
    refine ⟨by omega, fun heq => absurd heq (by omega), by simp⟩
  · simp only [if_neg hlt]
    exact ⟨h, by simp, fun hc => absurd hc hlt⟩

/-- A throwaway concrete event for the queue witness. -/
def sampleEvent : FirehoseEvent := mkBaseEvent zeroEnvelope

/-- A full queue of capacity 1. -/
def fullQueueExample : DeliveryQueue := { cap := 1, buf := [sampleEvent] }

/-- Claim C7 (witness): enqueuing into the full capacity-1 queue leaves it
unchanged (the new event is dropped) and within its capacity bound. -/
theorem delivery_queue_drop_newest_witness :
    tryEnqueue fullQueueExample sampleEvent = fullQueueExample ∧
    (tryEnqueue fullQueueExample sampleEvent).buf.length ≤ fullQueueExample.cap :=
  ⟨(delivery_queue_drop_newest fullQueueExample sampleEvent (by decide)).2.1 rfl,
   (delivery_queue_drop_newest fullQueueExample sampleEvent (by decide)).1⟩

/-- Claim C8 (counterexample): not every send to the error sink is
non-blocking. The credential-renewal failure path (`scheduleSessionRefresh`)
performs a plain `f.ErrorChan <- err` send, and `ErrorChan` is created
unbuffered by `NewCustomInstance`; absent a ready reader the send blocks
instead of dropping the error. -/
theorem refresh_failure_send_blocks :
    sendToErrorChan (sendStyleOf ErrorPath.scheduledRefreshFailure)
      errorChanCapacity = SendOutcome.blocked := rfl

/-- Claim C8 (amended): the two firehose error paths (connection-failure
reporting and per-message decode/classification errors) send through a
select with a default branch, so they never block — with no free receive
slot the error is dropped; the credential-renewal failure paths
(`scheduleSessionRefresh` and `RefreshSession`) instead use plain sends on
the unbuffered ErrorChan and block when no reader is present. -/
theorem error_sink_send_styles :
    (∀ n, sendToErrorChan (sendStyleOf ErrorPath.firehoseConnectFailure) n =
        SendOutcome.delivered ∨
      sendToErrorChan (sendStyleOf ErrorPath.firehoseConnectFailure) n =
        SendOutcome.dropped) ∧
    (∀ n, sendToErrorChan (sendStyleOf ErrorPath.invalidEventError) n =
        SendOutcome.delivered ∨
      sendToErrorChan (sendStyleOf ErrorPath.invalidEventError) n =
        SendOutcome.dropped) ∧
    sendToErrorChan (sendStyleOf ErrorPath.firehoseConnectFailure) 0 =
      SendOutcome.dropped ∧
    sendToErrorChan (sendStyleOf ErrorPath.invalidEventError) 0 =
      SendOutcome.dropped ∧
    sendToErrorChan (sendStyleOf ErrorPath.scheduledRefreshFailure) 0 =
      SendOutcome.blocked ∧
    sendToErrorChan (sendStyleOf ErrorPath.manualRefreshFailure) 0 =
      SendOutcome.blocked ∧
    errorChanCapacity = 0 := by
  refine ⟨?_, ?_, rfl, rfl, rfl, rfl, rfl⟩ <;>
    rintro (_ | n) <;> simp [sendToErrorChan, sendStyleOf]

/-! ## Stream start theorems -/

/-- Claim C9 (counterexample): `StreamEvents` is claimed to return an
immediate synchronous error for some structurally invalid configuration,
but the function has no error-returning path at all: no configuration, nil
included, makes it return a non-nil error. -/
theorem stream_start_error_is_impossible :
    ¬ ∃ o : Option FirehoseOptions, (streamEvents o).startError ≠ none := by
  rintro ⟨o, h⟩
  exact h rfl

/-- Claim C9 (amended): stream start never fails: every configuration is
accepted with a nil error; a nil or non-positive buffer size defaults the
queue capacity to 1000 and an empty collection filter set defaults to the
four core collections. With no configuration error in existence, none is
ever surfaced, at stream-start time or later. -/
theorem stream_start_always_succeeds :
    (∀ o : Option FirehoseOptions, (streamEvents o).startError = none) ∧
    (streamEvents none).queueCapacity = 1000 ∧
    (streamEvents none).collections = defaultCollections := by
  exact ⟨fun _ => rfl, rfl, rfl⟩

/-! ## Sequence/timestamp preservation -/

lemma processPostEvent_meta (ev : FirehoseEvent) (c : Commit) (e : FirehoseEvent)
    (h : processPostEvent ev c = .ok e) :
    e.sequence = ev.sequence ∧ e.timestampNs = ev.timestampNs := by
  unfold processPostEvent at h
  repeat' split at h
  all_goals first
    | exact Except.noConfusion h
    | (cases h; exact ⟨rfl, rfl⟩)

lemma processLikeEvent_meta (ev : FirehoseEvent) (c : Commit) (e : FirehoseEvent)
    (h : processLikeEvent ev c = .ok e) :
    e.sequence = ev.sequence ∧ e.timestampNs = ev.timestampNs := by
  unfold processLikeEvent at h
  repeat' split at h
  all_goals first
    | exact Except.noConfusion h
    | (cases h; exact ⟨rfl, rfl⟩)

lemma processRepostEvent_meta (ev : FirehoseEvent) (c : Commit) (e : FirehoseEvent)
    (h : processRepostEvent ev c = .ok e) :
    e.sequence = ev.sequence ∧ e.timestampNs = ev.timestampNs := by
  unfold processRepostEvent at h
  repeat' split at h
  all_goals first
    | exact Except.noConfusion h
    | (cases h; exact ⟨rfl, rfl⟩)

lemma processFollowEvent_meta (ev : FirehoseEvent) (c : Commit) (e : FirehoseEvent)
    (h : processFollowEvent ev c = .ok e) :
    e.sequence = ev.sequence ∧ e.timestampNs = ev.timestampNs := by
  unfold processFollowEvent at h
  repeat' split at h
  all_goals first
    | exact Except.noConfusion h
    | (cases h; exact ⟨rfl, rfl⟩)

lemma processProfileEvent_meta (ev : FirehoseEvent) (c : Commit) (e : FirehoseEvent)
    (h : processProfileEvent ev c = .ok e) :
    e.sequence = ev.sequence ∧ e.timestampNs = ev.timestampNs := by
  unfold processProfileEvent at h
  split at h
  · cases h; exact ⟨rfl, rfl⟩
  · split at h
    · exact Except.noConfusion h
    · split at h
      · exact Except.noConfusion h
      · dsimp only at h
        split at h
        · exact Except.noConfusion h
        · cases h; exact ⟨rfl, rfl⟩

lemma processCommitEvent_meta (ev : FirehoseEvent) (raw : ModelsEvent)
    (e : FirehoseEvent) (h : processCommitEvent ev raw = .ok e) :
    e.sequence = ev.sequence ∧ e.timestampNs = ev.timestampNs := by
  unfold processCommitEvent at h
  split at h
  · exact Except.noConfusion h
  · split at h
    · exact processPostEvent_meta _ _ _ h
    · exact processLikeEvent_meta _ _ _ h
    · exact processRepostEvent_meta _ _ _ h
    · exact processFollowEvent_meta _ _ _ h
    · exact processProfileEvent_meta _ _ _ h
    · cases h; exact ⟨rfl, rfl⟩

lemma processIdentityEvent_meta (ev : FirehoseEvent) (raw : ModelsEvent)
    (e : FirehoseEvent) (h : processIdentityEvent ev raw = .ok e) :
    e.sequence = ev.sequence ∧ e.timestampNs = ev.timestampNs := by
  unfold processIdentityEvent at h
  split at h
  · exact Except.noConfusion h
  · cases h; exact ⟨rfl, rfl⟩

lemma processAccountEvent_meta (ev : FirehoseEvent) (raw : ModelsEvent)
    (e : FirehoseEvent) (h : processAccountEvent ev raw = .ok e) :
    e.sequence = ev.sequence ∧ e.timestampNs = ev.timestampNs := by
  unfold processAccountEvent at h
  split at h
  · exact Except.noConfusion h
  · cases h; exact ⟨rfl, rfl⟩

lemma processEnvelope_meta (raw : ModelsEvent) (e : FirehoseEvent)
    (h : processEnvelope raw = .ok e) :
    e.sequence = raw.timeUS ∧ e.timestampNs = wrap64 (raw.timeUS * 1000) := by
  simp only [processEnvelope] at h
  split at h
  · exact processCommitEvent_meta _ _ _ h
  · exact processIdentityEvent_meta _ _ _ h
  · exact processAccountEvent_meta _ _ _ h
  · cases h; exact ⟨rfl, rfl⟩

lemma wrap64_eq_of_fits (n : Int) (h1 : int64Min ≤ n) (h2 : n ≤ int64Max) :
    wrap64 n = n := by
  simp only [wrap64, int64Min, int64Max] at *
  have e63 : (2 : Int) ^ 63 = 9223372036854775808 := by norm_num
  have e64 : (2 : Int) ^ 64 = 18446744073709551616 := by norm_num
  rw [e63, e64] at *
  omega

/-- Claim C10 (amended): for every wire message that decodes successfully
and classifies into an event, the event's sequence number is the envelope's
`TimeUS` verbatim, for every event kind; the timestamp is
`TimeUS × 1000` nanoseconds since the Unix epoch computed in 64-bit
(two's-complement, wrapping) integer arithmetic, which equals
`TimeUS × 1000` exactly whenever that product fits in an `int64`. -/
theorem sequence_and_timestamp_from_time_us :
    ∀ (p : WirePayload) (raw : ModelsEvent) (e : FirehoseEvent),
      unmarshalEvent p = .ok raw → processFirehoseMessage p = .ok e →
      e.sequence = raw.timeUS ∧
      e.timestampNs = wrap64 (raw.timeUS * 1000) ∧
      (int64Min ≤ raw.timeUS * 1000 → raw.timeUS * 1000 ≤ int64Max →
        e.timestampNs = raw.timeUS * 1000) := by
  intro p raw e h1 h2
  unfold processFirehoseMessage at h2
  rw [h1] at h2
  obtain ⟨hs, ht⟩ := processEnvelope_meta raw e h2
  exact ⟨hs, ht, fun hlo hhi => by rw [ht, wrap64_eq_of_fits _ hlo hhi]⟩

/-- A small decodable message for the Claim C10 witness. -/
def smallMsg : WirePayload :=
  .wellFormed (.obj [("did", .str "did:plc:w"), ("time_us", .num 42),
                     ("kind", .str "strange")])

/-- The envelope `smallMsg` decodes to. -/
def smallMsgRaw : ModelsEvent :=
  { did := "did:plc:w", timeUS := 42, kind := "strange", commit := none,
    identity := none, account := none }

/-- Claim C10 (witness): the amended statement at a concrete message with
`time_us = 42`: sequence 42, timestamp 42000 nanoseconds. -/
theorem sequence_and_timestamp_from_time_us_witness :
    (mkBaseEvent smallMsgRaw).sequence = smallMsgRaw.timeUS ∧
    (mkBaseEvent smallMsgRaw).timestampNs = wrap64 (smallMsgRaw.timeUS * 1000) ∧
    (int64Min ≤ smallMsgRaw.timeUS * 1000 → smallMsgRaw.timeUS * 1000 ≤ int64Max →
      (mkBaseEvent smallMsgRaw).timestampNs = smallMsgRaw.timeUS * 1000) :=
  sequence_and_timestamp_from_time_us smallMsg smallMsgRaw
    (mkBaseEvent smallMsgRaw) rfl rfl

/-- The overflow envelope: `time_us = 2^62` fits in `int64` and decodes,
but `2^62 × 1000 = 250 × 2^64` wraps to 0 in `int64` arithmetic. -/
def overflowMsgRaw : ModelsEvent :=
  { did := "did:plc:x", timeUS := 2 ^ 62, kind := "strange", commit := none,
    identity := none, account := none }

/-- The wire form of `overflowMsgRaw`. -/
def overflowMsg : WirePayload :=
  .wellFormed (.obj [("did", .str "did:plc:x"), ("time_us", .num (2 ^ 62)),
                     ("kind", .str "strange")])

/-- Claim C10 (counterexample): a message with `time_us = 2^62` decodes and
classifies successfully, its sequence is `2^62` verbatim, but its timestamp
is 0 nanoseconds — not `2^62 × 1000` — because the Go multiplication
`rawCommit.TimeUS * 1000` wraps in `int64`. -/
theorem timestamp_overflow_wraps :
    processFirehoseMessage overflowMsg = .ok (mkBaseEvent overflowMsgRaw) ∧
    (mkBaseEvent overflowMsgRaw).sequence = overflowMsgRaw.timeUS ∧
    (mkBaseEvent overflowMsgRaw).timestampNs = 0 ∧
    (mkBaseEvent overflowMsgRaw).timestampNs ≠ overflowMsgRaw.timeUS * 1000 := by
  refine ⟨rfl, rfl, by decide, by decide⟩

end Firefly

